import Mathlib

/-!
Shallow embedding of the Credit-Report-PDF-Analyzer scoring core
(`src/helpers/cleaner.py` and `src/helpers/report.py`).

Python strings are modelled as Lean `String`; `None`-able fields as `Option`;
Python `date` objects as the `Date` structure below (compared lexicographically,
as Python does); machine integers as `Int`/`Nat` (Python ints are unbounded, so
no wrap-around modelling is needed).  Python expressions that can raise
(`None.lower()`, `int("500.75")`) are modelled with `Except Unit`: `.error ()`
stands for an uncaught exception.  The ambient `datetime.now().date()` used by
`score_credit_report` is threaded through as an explicit `report_date`
parameter (the code calls `datetime.now()` at several points within one run;
one run is modelled as seeing a single fixed date).
-/

/-- Python date object: compared lexicographically on (year, month, day). -/
structure Date where
  year : Int
  month : Int
  day : Int
deriving DecidableEq, Repr

/-- Python `d1 < d2` on dates (lexicographic). -/
def dateLt (a b : Date) : Bool :=
  decide (a.year < b.year) ||
  (decide (a.year = b.year) &&
    (decide (a.month < b.month) ||
     (decide (a.month = b.month) && decide (a.day < b.day))))

/-- Python `d1 <= d2` on dates. -/
def dateLe (a b : Date) : Bool :=
  dateLt a b || decide (a = b)

/-- Python `d.replace(year=y)` (validity of the resulting calendar date is not
re-checked; the scoring code only ever feeds the result to comparisons). -/
def replaceYear (d : Date) (y : Int) : Date :=
  { d with year := y }

/-- `cleaner.compute_months_diff`: `(d2.year - d1.year) * 12 + (d2.month - d1.month)`. -/
def compute_months_diff (d1 d2 : Date) : Int :=
  (d2.year - d1.year) * 12 + (d2.month - d1.month)

/-- Is `needle` a leading segment of `hay`?  (List-level core of Python
`str.startswith`.) -/
def listLead : List Char → List Char → Bool
  | [], _ => true
  | _ :: _, [] => false
  | a :: as, b :: bs => a = b && listLead as bs

/-- Does `hay` contain `needle` as a contiguous run?  (List-level core of
Python `needle in hay`.) -/
def listHasSub (needle : List Char) : List Char → Bool
  | [] => needle.isEmpty
  | c :: rest => listLead needle (c :: rest) || listHasSub needle rest

/-- Python `s.startswith(pre)`. -/
def strStartsWith (s pre : String) : Bool :=
  listLead pre.data s.data

/-- Python `needle in hay` (substring containment). -/
def strContains (hay needle : String) : Bool :=
  listHasSub needle.data hay.data

/-- Python `s.lower()` (the strings handled by this program are ASCII). -/
def lowerStr (s : String) : String :=
  String.mk (s.data.map Char.toLower)

/-- Python `s.strip()`. -/
def pyStrip (s : String) : String :=
  String.mk (((s.data.dropWhile Char.isWhitespace).reverse.dropWhile Char.isWhitespace).reverse)

/-- Truthiness of a possibly-`None` Python string: `None` and `""` are falsy. -/
def truthyStr : Option String → Bool
  | none => false
  | some s => !s.data.isEmpty

/-- The non-breaking-space character `"\xa0"`. -/
def nbspChar : Char := Char.ofNat 160

/-- `cleaner.clean_text`: replace non-breaking spaces by ordinary spaces, then strip. -/
def clean_text (s : String) : String :=
  pyStrip (String.mk (s.data.map fun c => if c = nbspChar then ' ' else c))

/-- Matcher for CPython `strptime` directive `%m`, regex `1[0-2]|0[1-9]|[1-9]`
(ordered alternation; no later alternative can rescue a failed continuation
here because the next pattern character is always `/`).  Returns the month
value and the unconsumed characters. -/
def monthScan : List Char → Option (Nat × List Char)
  | [] => none
  | [c] => if c.isDigit && c ≠ '0' then some (c.toNat - 48, []) else none
  | c1 :: c2 :: rest =>
    if c1 = '1' && (c2 = '0' || c2 = '1' || c2 = '2') then
      some (10 + (c2.toNat - 48), rest)
    else if c1 = '0' && c2.isDigit && c2 ≠ '0' then
      some (c2.toNat - 48, rest)
    else if c1.isDigit && c1 ≠ '0' then
      some (c1.toNat - 48, c2 :: rest)
    else none

/-- After `%m`, the remainder of `strptime("%m/%Y")`: a literal `/`, exactly
four digits for `%Y`, and end of input; `date(year, month, 1)` raises for
year 0 (swallowed into `none` by the bare `except`). -/
def yearTail (m : Nat) : List Char → Option Date
  | ['/', d1, d2, d3, d4] =>
    if d1.isDigit && d2.isDigit && d3.isDigit && d4.isDigit then
      let y := (d1.toNat - 48) * 1000 + (d2.toNat - 48) * 100 +
               (d3.toNat - 48) * 10 + (d4.toNat - 48)
      if y = 0 then none else some ⟨(y : Int), (m : Int), 1⟩
    else none
  | _ => none

/-- `cleaner.parse_date`: `datetime.strptime(date_str.strip(), "%m/%Y").date()`
inside a bare `try/except` returning `None`; every failure is swallowed into
`none`. -/
def parse_date (s : String) : Option Date :=
  match monthScan (pyStrip s).data with
  | none => none
  | some (m, rest) => yearTail m rest

/-- Maximal run of `[\d,]` characters at the head of the list, with the rest. -/
def amountRun : List Char → (List Char × List Char)
  | [] => ([], [])
  | c :: rest =>
    if c.isDigit || c = ',' then
      let (run, rem) := amountRun rest
      (c :: run, rem)
    else ([], c :: rest)

/-- After a `$`, the text matched by group 1 of `\$([\d,]+(?:\.\d{2})?|\d+)`:
a non-empty `[\d,]+` run, greedily extended by `.dd` when present.  (The
second alternative `\d+` can never fire: it matches only where the first
does.) -/
def amountGroup (cs : List Char) : Option (List Char) :=
  match amountRun cs with
  | ([], _) => none
  | (run, rem) =>
    match rem with
    | '.' :: a :: b :: _ =>
      if a.isDigit && b.isDigit then some (run ++ ['.', a, b]) else some run
    | _ => some run

/-- `re.search(r"\$([\d,]+(?:\.\d{2})?|\d+)", line)`: leftmost `$` at which the
group matches, returning the matched group text. -/
def dollarSearch : List Char → Option (List Char)
  | [] => none
  | c :: rest =>
    if c = '$' then
      match amountGroup rest with
      | some g => some g
      | none => dollarSearch rest
    else dollarSearch rest

/-- Python `int(s)` on the comma-stripped amount group: succeeds only when the
string is a non-empty run of digits; `int("500.75")` or `int("")` raises
`ValueError`, modelled as `.error ()`. -/
def pyIntOfChars (cs : List Char) : Except Unit Int :=
  if cs ≠ [] && cs.all Char.isDigit then
    .ok ((cs.foldl (fun acc c => acc * 10 + (c.toNat - 48)) 0 : Nat) : Int)
  else .error ()

/-- First index `i+1` such that `lines[i]` contains `fst` and `lines[i+1]`
contains `snd` (the two-word label split across adjacent lines). -/
def labelPairIdx (fst snd : String) : List String → Nat → Option Nat
  | a :: b :: rest, i =>
    if strContains a fst && strContains b snd then some (i + 1)
    else labelPairIdx fst snd (b :: rest) (i + 1)
  | _, _ => none

/-- Scan lines for the first dollar amount; on a match, strip commas and apply
`int()` (which raises on a cents amount). -/
def scanAmount : List String → Except Unit (Option Int)
  | [] => .ok none
  | l :: rest =>
    match dollarSearch (pyStrip (String.mk (l.data.map fun c => if c = nbspChar then ' ' else c))).data with
    | some g => (pyIntOfChars (g.filter fun c => c ≠ ',')).map some
    | none => scanAmount rest

/-- `cleaner.extract_credit_limit`: find the "Credit"/"Limit" adjacent-line
label pair, then return the first dollar amount on the following lines as an
`int`; `none` when the label or amount is never found.  The `int()` conversion
is NOT guarded, so an amount with cents raises (modelled `.error ()`). -/
def extract_credit_limit (lines : List String) : Except Unit (Option Int) :=
  match labelPairIdx "Credit" "Limit" lines 0 with
  | none => .ok none
  | some idx => scanAmount (lines.drop (idx + 1))

/-- `cleaner.extract_original_amount`: identical to `extract_credit_limit` with
the "Original"/"Amount" label pair. -/
def extract_original_amount (lines : List String) : Except Unit (Option Int) :=
  match labelPairIdx "Original" "Amount" lines 0 with
  | none => .ok none
  | some idx => scanAmount (lines.drop (idx + 1))

/-- `report.check_prior_bankruptcy`: case-insensitive substring search for
"bankruptcy" in the whole document text. -/
def check_prior_bankruptcy (text : String) : Bool :=
  strContains (lowerStr text) "bankruptcy"

/-- One tradeline record as produced by `report.get_tradelines` (every key is
initialized, so "absent" is a stored `None`, not a missing key).  The
`original_amount` field appears in the spec's data model and in
`cleaner.extract_original_amount`, but `report.get_tradelines` never populates
it and the evaluator never reads it. -/
structure Tradeline where
  account_name : String := ""
  account_type : Option String := none
  account_condition : Option String := none
  payment_status : Option String := none
  months_reviewed : Option Int := none
  credit_limit : Option Int := none
  high_balance : Option Int := none
  responsibility : Option String := none
  open_date : Option Date := none
  status_date : Option Date := none
  is_medical_or_edu : Bool := false
  original_amount : Option Int := none
deriving DecidableEq, Repr

/-- The evaluation outcome attached to a tradeline (the `t["evaluation"]`
dict; the free-text `reasons` list is not modelled). -/
structure Evaluation where
  status : String
  is_bankruptcy_related : Bool
  is_positive : Bool
  is_negative : Bool
  is_skipped : Bool
deriving DecidableEq, Repr

/-- `report.score_credit_report` lines 221-227: mortgage detection,
`t["account_type"]` truthy and containing "real estate" or "mortgage"
(`account_type` is already lower-cased by the extractor; the check itself does
not lower). -/
def isMortgage (t : Tradeline) : Bool :=
  match t.account_type with
  | some ty => !ty.data.isEmpty && (strContains ty "real estate" || strContains ty "mortgage")
  | none => false

/-- Lines 230-248: both condition and payment status must be strings (not
`None`), condition lower-starts with "open" and status lower-starts with
"current". -/
def isOpenAndCurrent (t : Tradeline) : Bool :=
  match t.account_condition, t.payment_status with
  | some c, some p => strStartsWith (lowerStr c) "open" && strStartsWith (lowerStr p) "current"
  | _, _ => false

/-- Lines 253-256: `months_reviewed`, falling back to
`compute_months_diff(open_date, report_date)` when absent. -/
def monthsOnFile (rd : Date) (t : Tradeline) : Option Int :=
  match t.months_reviewed with
  | some m => some m
  | none =>
    match t.open_date with
    | some od => some (compute_months_diff od rd)
    | none => none

/-- The `months_on_file is not None and months_on_file >= 12` conjuncts of the
+1 test (line 325-326). -/
def monthsOk (rd : Date) (t : Tradeline) : Bool :=
  match monthsOnFile rd t with
  | some m => decide (12 ≤ m)
  | none => false

/-- Line 270: `limit_ok = t["credit_limit"] and (t["credit_limit"] > 1000)`
(truthiness: `None` and `0` are falsy; the comparison is strict). -/
def limitOk (t : Tradeline) : Bool :=
  match t.credit_limit with
  | some v => decide (1000 < v)
  | none => false

/-- Lines 284-299: medical/educational flag, or account type containing
"auto loan" or "auto lease". -/
def skipForPositive (t : Tradeline) : Bool :=
  t.is_medical_or_edu ||
    (match t.account_type with
     | some ty => !ty.data.isEmpty && (strContains ty "auto loan" || strContains ty "auto lease")
     | none => false)

/-- Lines 301-319: responsibility is waived for mortgages; otherwise it must
be truthy and lower-start with "individual". -/
def meetsResponsibility (t : Tradeline) : Bool :=
  if isMortgage t then true
  else
    match t.responsibility with
    | some r => !r.data.isEmpty && strStartsWith (lowerStr r) "individual"
    | none => false

/-- Lines 321-328: the +1 test. -/
def positiveTest (rd : Date) (t : Tradeline) : Bool :=
  isOpenAndCurrent t && meetsResponsibility t && limitOk t && monthsOk rd t &&
    !skipForPositive t

/-- Lines 340-365: the -1 test; "unpaid balance reported as loss" in the
lowered condition or "seriously past due" in the lowered status, unless
medical/educational (`None` fields are defaulted to `""` here, lines 341-351). -/
def negativeTest (t : Tradeline) : Bool :=
  (strContains (lowerStr (t.account_condition.getD "")) "unpaid balance reported as loss" ||
   strContains (lowerStr (t.payment_status.getD "")) "seriously past due") &&
    !t.is_medical_or_edu

/-- Lines 199-207 / 438-448: does the (lowered) condition mark the account as
discharged through / included in bankruptcy? -/
def bankruptcyCondMatch (c : String) : Bool :=
  strContains (lowerStr c) "discharged through bankruptcy" ||
  strContains (lowerStr c) "included in bankruptcy"

/-- The non-bankruptcy part of the per-tradeline evaluation (lines 218-384):
positive and negative tests run independently; `status` is "accepted" when
positive, overwritten to "rejected" when negative, and "skipped" when neither. -/
def evalMain (rd : Date) (t : Tradeline) : Evaluation :=
  let pos := positiveTest rd t
  let neg := negativeTest t
  { status := if neg then "rejected" else if pos then "accepted" else "skipped"
    is_bankruptcy_related := false
    is_positive := pos
    is_negative := neg
    is_skipped := !pos && !neg }

/-- Full per-tradeline evaluation.  When the document has a bankruptcy, line
200 runs `t.get("account_condition", "").lower()` on the stored value; the key
is always present, so a stored `None` raises `AttributeError` (`.error ()`).
A bankruptcy-discharged record is skipped before any other rule. -/
def evalOne (hasB : Bool) (rd : Date) (t : Tradeline) : Except Unit Evaluation :=
  match hasB, t.account_condition with
  | false, _ => .ok (evalMain rd t)
  | true, none => .error ()
  | true, some c =>
    if bankruptcyCondMatch c then
      .ok { status := "skipped", is_bankruptcy_related := true,
            is_positive := false, is_negative := false, is_skipped := true }
    else .ok (evalMain rd t)

/-- Accumulated state of the main scoring loop (lines 177-384): counters and
the accepted / rejected / skipped partitions, in input order.  A tradeline
that passes both tests is counted and listed on both sides, exactly as the
loop does. -/
structure Tally where
  pos : Nat
  neg : Nat
  positives : List Tradeline
  negatives : List Tradeline
  skipped : List Tradeline
deriving DecidableEq, Repr

/-- Fold one evaluated tradeline into the tally (prepending; the recursion in
`runTradelines` restores input order). -/
def tallyCons (t : Tradeline) (e : Evaluation) (rest : Tally) : Tally :=
  { pos := (if e.is_positive then 1 else 0) + rest.pos
    neg := (if e.is_negative then 1 else 0) + rest.neg
    positives := if e.is_positive then t :: rest.positives else rest.positives
    negatives := if e.is_negative then t :: rest.negatives else rest.negatives
    skipped := if e.is_skipped then t :: rest.skipped else rest.skipped }

/-- The main scoring loop over all tradelines; an exception anywhere aborts
the whole run. -/
def runTradelines (hasB : Bool) (rd : Date) : List Tradeline → Except Unit Tally
  | [] => .ok ⟨0, 0, [], [], []⟩
  | t :: ts =>
    match evalOne hasB rd t with
    | .error e => .error e
    | .ok ev =>
      match runTradelines hasB rd ts with
      | .error e => .error e
      | .ok rest => .ok (tallyCons t ev rest)

/-- Line 174: `base_score = -1 if has_bankruptcy else 0`. -/
def baseScore (hasB : Bool) : Int :=
  if hasB then -1 else 0

/-- Line 387: `raw_score = base_score + positive_count - negative_count`. -/
def rawOf (hasB : Bool) (tal : Tally) : Int :=
  baseScore hasB + tal.pos - tal.neg

/-- `report.get_negative_tradelines_for_redemption` predicate: status date
present (dates are truthy) and strictly before `report_date.replace(year-2)`. -/
def olderThan2yrs (rd : Date) (t : Tradeline) : Bool :=
  match t.status_date with
  | some sd => dateLt sd (replaceYear rd (rd.year - 2))
  | none => false

/-- Lines 402-403: the redemption scenario triggers when the fraction of
negative tradelines older than 2 years is at least 0.70 and there is at least
one negative tradeline (exact rational comparison stands in for the float
division). -/
def redemptionTrigger (rd : Date) (negs : List Tradeline) : Bool :=
  !negs.isEmpty && decide (7 * negs.length ≤ 10 * negs.countP (olderThan2yrs rd))

/-- Line 416-422 `in_last_3_years`: keep when the status date is absent or on/
after `now.replace(year-3)`. -/
def inLast3Years (rd : Date) (t : Tradeline) : Bool :=
  match t.status_date with
  | none => true
  | some sd => dateLe (replaceYear rd (rd.year - 3)) sd

/-- Outcome of one iteration of the redemption re-scoring loop (lines
430-521). -/
inductive RedOutcome where
  | excludedBankruptcy
  | excludedOld
  | considered (pos : Bool) (neg : Bool)
deriving DecidableEq, Repr

/-- The "considered" branch of the redemption loop (lines 459-521), for a
tradeline whose condition and status are the strings `c` and `p`: the +1 and
-1 checks are re-run inline.  A `None` responsibility on a non-mortgage
tradeline raises (line 496, unguarded `.lower()`). -/
def redResp (t : Tradeline) : Except Unit Bool :=
  if isMortgage t then .ok true
  else match t.responsibility with
       | none => .error ()
       | some r => .ok (strStartsWith (lowerStr r) "individual")

/-- The classification part of the "considered" branch, given the condition
and status strings `c` and `p`. -/
def redConsidered (rd : Date) (t : Tradeline) (c p : String) : Except Unit RedOutcome :=
  match redResp t with
  | .error e => .error e
  | .ok resp =>
    .ok (RedOutcome.considered
      (strStartsWith (lowerStr c) "open" && strStartsWith (lowerStr p) "current" &&
        resp && limitOk t && monthsOk rd t && !skipForPositive t)
      ((strContains (lowerStr c) "unpaid balance reported as loss" ||
        strContains (lowerStr p) "seriously past due") && !t.is_medical_or_edu))

/-- Lines 452-521 without the bankruptcy gate: too-old tradelines are excluded
before any unguarded `.lower()`; a considered tradeline with a `None`
condition or status raises at line 464/466. -/
def redEvalBody (rd : Date) (t : Tradeline) : Except Unit RedOutcome :=
  if inLast3Years rd t then
    match t.account_condition, t.payment_status with
    | some c, some p => redConsidered rd t c p
    | _, _ => .error ()
  else .ok RedOutcome.excludedOld

/-- One iteration of the redemption loop.  Unlike the first pass, every
`.lower()` here is unguarded: a `None` condition raises when the bankruptcy
flag is set (line 440) or on any considered tradeline (line 464). -/
def redEvalOne (hasB : Bool) (rd : Date) (t : Tradeline) : Except Unit RedOutcome :=
  match hasB, t.account_condition with
  | false, _ => redEvalBody rd t
  | true, none => .error ()
  | true, some c =>
    if bankruptcyCondMatch c then .ok RedOutcome.excludedBankruptcy
    else redEvalBody rd t

/-- Accumulated state of the redemption loop: counters and the redemption
positive / negative lists. -/
structure RedTally where
  pos : Nat
  neg : Nat
  positives : List Tradeline
  negatives : List Tradeline
deriving DecidableEq, Repr

/-- Fold one redemption outcome into the redemption tally. -/
def redCons (t : Tradeline) (o : RedOutcome) (rest : RedTally) : RedTally :=
  match o with
  | RedOutcome.excludedBankruptcy => rest
  | RedOutcome.excludedOld => rest
  | RedOutcome.considered pos neg =>
    { pos := (if pos then 1 else 0) + rest.pos
      neg := (if neg then 1 else 0) + rest.neg
      positives := if pos then t :: rest.positives else rest.positives
      negatives := if neg then t :: rest.negatives else rest.negatives }

/-- The redemption re-scoring loop over `all_tradelines`. -/
def runRedemption (hasB : Bool) (rd : Date) : List Tradeline → Except Unit RedTally
  | [] => .ok ⟨0, 0, [], []⟩
  | t :: ts =>
    match redEvalOne hasB rd t with
    | .error e => .error e
    | .ok o =>
      match runRedemption hasB rd ts with
      | .error e => .error e
      | .ok rest => .ok (redCons t o rest)

/-- `report.grade_report`: the final score-to-grade mapping; with a score of
exactly 4 the presence of a mortgage among the positives lifts the grade to 1. -/
def grade_report (final_score : Int) (positive_tradelines : List Tradeline) : Nat :=
  if final_score < 0 then 5
  else if final_score = 0 then 4
  else if final_score = 1 ∨ final_score = 2 then 3
  else if final_score = 3 ∨ final_score = 4 then
    if final_score = 4 && positive_tradelines.any isMortgage then 1 else 2
  else 1

/-- The `redemption_result` dict (only the fields the caller reads). -/
structure RedemptionResult where
  applied : Bool
  positive_count : Nat
  negative_count : Nat
  final_score : Int
deriving DecidableEq, Repr

/-- The `(final_score, final_grade, extras)` value returned by
`score_credit_report` (the float `pct_neg_older_2yr`, the `all_tradelines`
echo and the free-text fields are not modelled). -/
structure ReportResult where
  final_score : Int
  final_grade : Nat
  positive_count : Nat
  negative_count : Nat
  base_score : Int
  has_bankruptcy : Bool
  redemption_applied : Bool
  redemption_result : Option RedemptionResult
  accepted : List Tradeline
  rejected : List Tradeline
  skipped : List Tradeline
deriving DecidableEq, Repr

/-- `report.score_credit_report`, from the point where the document text has
been reduced to the bankruptcy flag and the extracted tradelines: the main
loop, the conditional redemption re-score (entered exactly when the 70%%
trigger fires, and adopted only when strictly better), and the grade mapping. -/
def scoreReport (hasB : Bool) (rd : Date) (ts : List Tradeline) : Except Unit ReportResult :=
  match runTradelines hasB rd ts with
  | .error e => .error e
  | .ok tal =>
  let raw := rawOf hasB tal
  if redemptionTrigger rd tal.negatives then
    match runRedemption hasB rd ts with
    | .error e => .error e
    | .ok red =>
    let redScore := baseScore hasB + red.pos - red.neg
    let redRes : RedemptionResult :=
      { applied := true, positive_count := red.pos, negative_count := red.neg,
        final_score := redScore }
    if raw < redScore then
      .ok { final_score := redScore, final_grade := grade_report redScore red.positives,
            positive_count := tal.pos, negative_count := tal.neg,
            base_score := baseScore hasB, has_bankruptcy := hasB,
            redemption_applied := true, redemption_result := some redRes,
            accepted := red.positives, rejected := red.negatives,
            skipped := tal.skipped }
    else
      .ok { final_score := raw, final_grade := grade_report raw tal.positives,
            positive_count := tal.pos, negative_count := tal.neg,
            base_score := baseScore hasB, has_bankruptcy := hasB,
            redemption_applied := true, redemption_result := some redRes,
            accepted := tal.positives, rejected := tal.negatives,
            skipped := tal.skipped }
  else
    .ok { final_score := raw, final_grade := grade_report raw tal.positives,
          positive_count := tal.pos, negative_count := tal.neg,
          base_score := baseScore hasB, has_bankruptcy := hasB,
          redemption_applied := false, redemption_result := none,
          accepted := tal.positives, rejected := tal.negatives,
          skipped := tal.skipped }

/-- A fixed report date used for concrete runs (stands for
`datetime.now().date()`). -/
def d2025 : Date := ⟨2025, 10, 12⟩

/-- A negative tradeline whose status date is older than 2 years but within 3
years: the redemption scenario triggers, drops nothing, and cannot improve the
score. -/
def tNegRecent : Tradeline :=
  { account_type := some "credit card"
    account_condition := some "Collection"
    payment_status := some "Seriously past due"
    months_reviewed := some 20
    responsibility := some "Individual"
    status_date := some ⟨2023, 5, 1⟩ }

/-- A tradeline accepted as positive whose status date is more than 3 years
old. -/
def tPosOld : Tradeline :=
  { account_type := some "credit card"
    account_condition := some "Open"
    payment_status := some "Current"
    months_reviewed := some 24
    credit_limit := some 5000
    responsibility := some "Individual"
    status_date := some ⟨2019, 5, 20⟩ }

/-- A negative tradeline whose status date is more than 3 years old. -/
def tNegOld : Tradeline :=
  { account_type := some "credit card"
    account_condition := some "Collection"
    payment_status := some "Seriously past due"
    months_reviewed := some 20
    responsibility := some "Individual"
    status_date := some ⟨2020, 1, 15⟩ }

/-- A conventional real-estate tradeline, open and current, with a large
original amount but no reported credit limit. -/
def tConvRE : Tradeline :=
  { account_type := some "conventional real estate loan"
    account_condition := some "Open"
    payment_status := some "Current"
    months_reviewed := some 24
    original_amount := some 50000 }

/-- A non-mortgage tradeline meeting every positive requirement except that
its credit limit is exactly 1000 (its original amount is 1500). -/
def tLimit1000 : Tradeline :=
  { account_type := some "credit card"
    account_condition := some "Open"
    payment_status := some "Current"
    months_reviewed := some 24
    credit_limit := some 1000
    original_amount := some 1500
    responsibility := some "Individual" }

/-- A tradeline whose payment status is the compound
"Current/was 60 days past due" form, meeting every other positive
requirement. -/
def tCompound : Tradeline :=
  { account_type := some "credit card"
    account_condition := some "Open"
    payment_status := some "Current/was 60 days past due"
    months_reviewed := some 24
    credit_limit := some 5000
    responsibility := some "Individual" }

/-- A tradeline satisfying the positive test and the negative test at once:
the condition starts with "open" and contains "unpaid balance reported as
loss" while the status is "Current". -/
def tBoth : Tradeline :=
  { account_type := some "credit card"
    account_condition := some "Open - Unpaid balance reported as loss"
    payment_status := some "Current"
    months_reviewed := some 24
    credit_limit := some 5000
    responsibility := some "Individual" }

/-- A fully current, individual, 5000-limit tradeline (used in concrete
scoring runs). -/
def tPlain : Tradeline :=
  { account_type := some "credit card"
    account_condition := some "Open"
    payment_status := some "Current"
    months_reviewed := some 24
    credit_limit := some 5000
    responsibility := some "Individual" }

/-- A mortgage-typed tradeline (for the grade-mapping boundary). -/
def tMort : Tradeline :=
  { account_type := some "conventional real estate loan"
    account_condition := some "Open"
    payment_status := some "Current"
    months_reviewed := some 24
    credit_limit := some 5000 }

/-- The compound payment-status template used by the claim about
"current/was {n} days past due" statuses. -/
def compoundLine (n : Nat) : Tradeline :=
  { account_type := some "credit card"
    account_condition := some "Open"
    payment_status := some ("Current/was " ++ toString n ++ " days past due")
    months_reviewed := some 24
    credit_limit := some 5000
    responsibility := some "Individual" }

/-- The character `'0' + n` for a digit value `n`. -/
def digitChar (n : Nat) : Char := Char.ofNat (48 + n)

/-- The concrete result of scoring `[tNegRecent]` at `d2025` (used to apply
the redemption-flag theorem at a concrete input). -/
def repNegRecent : ReportResult :=
  { final_score := -1, final_grade := 5, positive_count := 0, negative_count := 1,
    base_score := 0, has_bankruptcy := false, redemption_applied := true,
    redemption_result := some ⟨true, 0, 1, -1⟩,
    accepted := [], rejected := [tNegRecent], skipped := [] }

/-- C7: for every document (bankruptcy flag and extracted tradeline list),
before any redemption adjustment the raw score equals
`base_score + positive_count - negative_count`, where `base_score` is -1 when
the document-level bankruptcy flag is set and 0 otherwise, and the counts are
exactly the sizes of the accepted and rejected partitions. -/
theorem raw_score_formula :
  ∀ (hasB : Bool) (rd : Date) (ts : List Tradeline) (tal : Tally),
    runTradelines hasB rd ts = .ok tal →
    tal.pos = tal.positives.length ∧ tal.neg = tal.negatives.length ∧
    rawOf hasB tal = baseScore hasB + (tal.positives.length : Int) - (tal.negatives.length : Int) := by
  intro hasB rd ts
  induction ts with
  | nil =>
    intro tal h
    simp only [runTradelines] at h
    cases h
    exact ⟨rfl, rfl, rfl⟩
  | cons t ts ih =>
    intro tal h
    simp only [runTradelines] at h
    cases he : evalOne hasB rd t with
    | error e => rw [he] at h; cases h
    | ok ev =>
      rw [he] at h
      cases hr : runTradelines hasB rd ts with
      | error e => rw [hr] at h; cases h
      | ok rest =>
        rw [hr] at h
        cases h
        obtain ⟨h1, h2, _⟩ := ih rest hr
        refine ⟨?_, ?_, ?_⟩
        · cases hp : ev.is_positive <;> simp [tallyCons, hp, h1] <;> omega
        · cases hn : ev.is_negative <;> simp [tallyCons, hn, h2] <;> omega
        · cases hp : ev.is_positive <;> cases hn : ev.is_negative <;>
            simp [rawOf, tallyCons, hp, hn, h1, h2, baseScore] <;> omega

theorem raw_score_formula_witness :
  runTradelines false d2025 [tPlain, tNegRecent] = .ok ⟨1, 1, [tPlain], [tNegRecent], []⟩ ∧
  rawOf false ⟨1, 1, [tPlain], [tNegRecent], []⟩ =
    baseScore false + (([tPlain] : List Tradeline).length : Int) - (([tNegRecent] : List Tradeline).length : Int) :=
  ⟨rfl, (raw_score_formula false d2025 [tPlain, tNegRecent] ⟨1, 1, [tPlain], [tNegRecent], []⟩ rfl).2.2⟩

/-- C8: the grade mapping sends a negative score to grade 5, score 0 to 4,
scores 1-2 to 3, score 3 to 2, score 4 to 1 exactly when some accepted
positive tradeline is a mortgage (2 otherwise), and scores of 5 or more
to 1. -/
theorem grade_report_mapping :
  ∀ (score : Int) (ps : List Tradeline),
    (score < 0 → grade_report score ps = 5) ∧
    (score = 0 → grade_report score ps = 4) ∧
    (score = 1 ∨ score = 2 → grade_report score ps = 3) ∧
    (score = 3 → grade_report score ps = 2) ∧
    (score = 4 → (∃ t ∈ ps, isMortgage t = true) → grade_report score ps = 1) ∧
    (score = 4 → (∀ t ∈ ps, isMortgage t = false) → grade_report score ps = 2) ∧
    (5 ≤ score → grade_report score ps = 1) := by
  intro score ps
  refine ⟨?_, ?_, ?_, ?_, ?_, ?_, ?_⟩
  · intro h; simp [grade_report, h]
  · intro h; subst h; norm_num [grade_report]
  · rintro (h | h) <;> subst h <;> norm_num [grade_report]
  · intro h; subst h; norm_num [grade_report]
  · intro h hex; subst h
    have hany : ps.any isMortgage = true := List.any_eq_true.mpr (by
      obtain ⟨t, ht, hm⟩ := hex; exact ⟨t, ht, hm⟩)
    norm_num [grade_report, hany]
  · intro h hall; subst h
    have hany : ps.any isMortgage = false := by
      rw [List.any_eq_false]
      intro t ht
      simp [hall t ht]
    norm_num [grade_report, hany]
  · intro h
    have h1 : ¬ score < 0 := by omega
    have h2 : ¬ score = 0 := by omega
    have h3 : ¬ (score = 1 ∨ score = 2) := by omega
    have h4 : ¬ (score = 3 ∨ score = 4) := by omega
    simp [grade_report, h1, h2, h3, h4]

theorem grade_report_mapping_witness :
  grade_report 4 [tMort] = 1 ∧ grade_report 4 [tPlain] = 2 ∧
  grade_report (-1) [] = 5 ∧ grade_report 5 [] = 1 :=
  ⟨(grade_report_mapping 4 [tMort]).2.2.2.2.1 rfl ⟨tMort, by simp, by decide⟩,
   (grade_report_mapping 4 [tPlain]).2.2.2.2.2.1 rfl (by intro t ht; simp at ht; subst ht; decide),
   (grade_report_mapping (-1) []).1 (by norm_num),
   (grade_report_mapping 5 []).2.2.2.2.2.2 (by norm_num)⟩

/-- C9 (amended): once evaluation completes, `is_skipped` holds exactly when
neither `is_positive` nor `is_negative` does, and a bankruptcy-related record
is skipped with both tests off; but a record CAN satisfy the positive and the
negative test simultaneously (then both flags are set and it is counted on
both sides), so "exactly one of the three" holds only outside that case. -/
theorem eval_flags_structure :
  ∀ (hasB : Bool) (rd : Date) (t : Tradeline) (e : Evaluation),
    evalOne hasB rd t = .ok e →
    (e.is_skipped = (!e.is_positive && !e.is_negative)) ∧
    (e.is_bankruptcy_related = true →
      e.is_positive = false ∧ e.is_negative = false ∧ e.is_skipped = true) ∧
    (e.is_positive = true → e.is_negative = true →
      positiveTest rd t = true ∧ negativeTest t = true) := by
  intro hasB rd t e h
  cases hasB with
  | false =>
    simp only [evalOne] at h
    cases h
    exact ⟨rfl, by intro hbk; simp [evalMain] at hbk, fun h1 h2 => ⟨h1, h2⟩⟩
  | true =>
    cases hc : t.account_condition with
    | none => simp only [evalOne, hc] at h; cases h
    | some c =>
      simp only [evalOne, hc] at h
      by_cases hb : bankruptcyCondMatch c = true
      · rw [if_pos hb] at h; cases h
        exact ⟨rfl, fun _ => ⟨rfl, rfl, rfl⟩, by intro h1; simp at h1⟩
      · rw [if_neg hb] at h; cases h
        exact ⟨rfl, by intro hbk; simp [evalMain] at hbk, fun h1 h2 => ⟨h1, h2⟩⟩

theorem eval_flags_structure_witness :
  evalOne false d2025 tBoth = .ok (evalMain d2025 tBoth) ∧
  (positiveTest d2025 tBoth = true ∧ negativeTest tBoth = true) :=
  ⟨rfl, (eval_flags_structure false d2025 tBoth (evalMain d2025 tBoth) rfl).2.2 rfl rfl⟩

/-- C2 (amended): for a real-estate/mortgage tradeline the positive test
waives only the responsibility requirement: it accepts exactly when the
account is open and current, the credit limit is present and strictly above
1000, the months-on-file requirement is met, and the account is not a
medical/educational or auto account.  The tenure check still applies, and
`original_amount` is never consulted by the evaluator (there is no
30000-threshold branch). -/
theorem mortgage_exception_actual :
  ∀ (rd : Date) (t : Tradeline) (e : Evaluation),
    evalOne false rd t = .ok e → isMortgage t = true →
    ((e.is_positive = true ↔
       (isOpenAndCurrent t = true ∧ limitOk t = true ∧ monthsOk rd t = true ∧
        skipForPositive t = false)) ∧
     (∀ v, evalOne false rd { t with original_amount := v } = evalOne false rd t)) := by
  intro rd t e h hm
  simp only [evalOne] at h
  cases h
  constructor
  · show positiveTest rd t = true ↔ _
    simp only [positiveTest, meetsResponsibility, hm, if_true, Bool.and_eq_true,
      Bool.not_eq_true']
    tauto
  · intro v; rfl

theorem mortgage_exception_actual_witness :
  evalOne false d2025 tMort = .ok (evalMain d2025 tMort) ∧ isMortgage tMort = true ∧
  ((evalMain d2025 tMort).is_positive = true ↔
    (isOpenAndCurrent tMort = true ∧ limitOk tMort = true ∧ monthsOk d2025 tMort = true ∧
     skipForPositive tMort = false)) :=
  ⟨rfl, rfl, (mortgage_exception_actual d2025 tMort (evalMain d2025 tMort) rfl rfl).1⟩

/-- C3 (amended): the amount condition of the positive test is
`credit_limit` present (truthy) and strictly greater than 1000; a credit
limit of exactly 1000 fails it and makes the record non-positive, and
`original_amount` is never consulted (there is no `original_amount >= 1000`
alternative). -/
theorem amount_condition_actual :
  ∀ (rd : Date) (t : Tradeline) (e : Evaluation),
    evalOne false rd t = .ok e →
    ((limitOk t = true ↔ ∃ v, t.credit_limit = some v ∧ 1000 < v) ∧
     (e.is_positive = true → limitOk t = true) ∧
     (t.credit_limit = some 1000 → e.is_positive = false) ∧
     (∀ v, evalOne false rd { t with original_amount := v } = evalOne false rd t)) := by
  intro rd t e h
  simp only [evalOne] at h
  cases h
  refine ⟨?_, ?_, ?_, fun v => rfl⟩
  · cases hc : t.credit_limit with
    | none => simp [limitOk, hc]
    | some v => simp [limitOk, hc]
  · intro hp
    have hp2 : positiveTest rd t = true := hp
    simp only [positiveTest, Bool.and_eq_true] at hp2
    exact hp2.1.1.2
  · intro h1000
    cases hpv : (evalMain rd t).is_positive with
    | false => rfl
    | true =>
      exfalso
      have hp2 : positiveTest rd t = true := hpv
      simp only [positiveTest, Bool.and_eq_true] at hp2
      have hl := hp2.1.1.2
      rw [limitOk, h1000] at hl
      simp at hl

theorem amount_condition_actual_witness :
  evalOne false d2025 tLimit1000 = .ok (evalMain d2025 tLimit1000) ∧
  tLimit1000.credit_limit = some 1000 ∧
  (evalMain d2025 tLimit1000).is_positive = false :=
  ⟨rfl, rfl,
   (amount_condition_actual d2025 tLimit1000 (evalMain d2025 tLimit1000) rfl).2.2.1 rfl⟩


/-- C1 (amended): whenever the redemption re-score is computed (the 70%%
trigger fires on a non-empty negative list), `redemption_applied` is set to
true, even when the redemption score does not exceed the raw score; the
returned `positive_count`/`negative_count` are always the pre-redemption
counts, and when the redemption score is less than or equal to the raw score
the final score and the accepted/rejected partitions remain the
pre-redemption ones.  `redemption_applied = false` happens exactly when the
trigger does not fire. -/
theorem redemption_flag_and_adoption :
  ∀ (hasB : Bool) (rd : Date) (ts : List Tradeline) (tal : Tally) (r : ReportResult),
    runTradelines hasB rd ts = .ok tal →
    scoreReport hasB rd ts = .ok r →
    (r.redemption_applied = redemptionTrigger rd tal.negatives) ∧
    (r.positive_count = tal.pos ∧ r.negative_count = tal.neg) ∧
    (∀ rr, r.redemption_result = some rr →
      rr.final_score ≤ rawOf hasB tal →
      r.final_score = rawOf hasB tal ∧ r.accepted = tal.positives ∧
      r.rejected = tal.negatives) ∧
    (r.redemption_applied = false →
      r.final_score = rawOf hasB tal ∧ r.accepted = tal.positives ∧
      r.rejected = tal.negatives ∧ r.redemption_result = none) := by
  intro hasB rd ts tal r h1 h2
  simp only [scoreReport, h1] at h2
  by_cases ht : redemptionTrigger rd tal.negatives = true
  · rw [if_pos ht] at h2
    cases hred : runRedemption hasB rd ts with
    | error e => simp only [hred] at h2; cases h2
    | ok red =>
      simp only [hred] at h2
      by_cases hcmp : rawOf hasB tal < baseScore hasB + (red.pos : Int) - (red.neg : Int)
      · rw [if_pos hcmp] at h2
        cases h2
        refine ⟨ht.symm, ⟨rfl, rfl⟩, ?_, ?_⟩
        · intro rr hrr hle
          cases hrr
          exfalso
          simp only at hle
          omega
        · intro hfalse; simp at hfalse
      · rw [if_neg hcmp] at h2
        cases h2
        refine ⟨ht.symm, ⟨rfl, rfl⟩, ?_, ?_⟩
        · intro rr hrr hle; cases hrr; exact ⟨rfl, rfl, rfl⟩
        · intro hfalse; simp at hfalse
  · rw [if_neg ht] at h2
    cases h2
    have ht2 : redemptionTrigger rd tal.negatives = false := by
      cases hh : redemptionTrigger rd tal.negatives
      · rfl
      · exact absurd hh ht
    refine ⟨ht2.symm, ⟨rfl, rfl⟩, ?_, fun _ => ⟨rfl, rfl, rfl, rfl⟩⟩
    intro rr hrr
    cases hrr

theorem redemption_flag_and_adoption_witness :
  runTradelines false d2025 [tNegRecent] = .ok ⟨0, 1, [], [tNegRecent], []⟩ ∧
  scoreReport false d2025 [tNegRecent] = .ok repNegRecent ∧
  repNegRecent.redemption_applied = redemptionTrigger d2025 [tNegRecent] :=
  ⟨rfl, rfl,
   (redemption_flag_and_adoption false d2025 [tNegRecent] ⟨0, 1, [], [tNegRecent], []⟩
     repNegRecent rfl rfl).1⟩

theorem dateLe_not_lt (a b : Date) : dateLe a b = !dateLt b a := by
  rw [Bool.eq_iff_iff]
  obtain ⟨y1, m1, d1⟩ := a
  obtain ⟨y2, m2, d2⟩ := b
  simp [dateLe, dateLt, Date.mk.injEq]
  omega

theorem startsWith_individual_truthy (r : String) :
    (!r.data.isEmpty && strStartsWith (lowerStr r) "individual") =
      strStartsWith (lowerStr r) "individual" := by
  obtain ⟨l⟩ := r
  cases l with
  | nil => rfl
  | cons c cs => simp [String.data]

theorem redResp_meets (t : Tradeline) :
    ∀ resp, redResp t = .ok resp → meetsResponsibility t = resp := by
  intro resp hr
  simp only [redResp] at hr
  by_cases hm : isMortgage t = true
  · rw [if_pos hm] at hr
    cases hr
    simp [meetsResponsibility, hm]
  · rw [if_neg hm] at hr
    cases hrsp : t.responsibility with
    | none => simp only [hrsp] at hr; cases hr
    | some r =>
      simp only [hrsp] at hr
      cases hr
      have hmf : isMortgage t = false := by
        cases hh : isMortgage t
        · rfl
        · exact absurd hh hm
      simp only [meetsResponsibility, hmf, Bool.false_eq_true, if_false, hrsp]
      exact startsWith_individual_truthy r

theorem redEvalBody_spec (rd : Date) (t : Tradeline) :
    ∀ o, redEvalBody rd t = .ok o →
      (o = RedOutcome.excludedOld → inLast3Years rd t = false) ∧
      (∀ p n, o = RedOutcome.considered p n →
        inLast3Years rd t = true ∧ p = positiveTest rd t ∧ n = negativeTest t) := by
  intro o hb
  simp only [redEvalBody] at hb
  by_cases h3 : inLast3Years rd t = true
  · rw [if_pos h3] at hb
    cases hcond : t.account_condition with
    | none => simp only [hcond] at hb; cases hb
    | some c =>
      cases hstat : t.payment_status with
      | none => simp only [hcond, hstat] at hb; cases hb
      | some p =>
        simp only [hcond, hstat] at hb
        simp only [redConsidered] at hb
        cases hresp : redResp t with
        | error e => simp only [hresp] at hb; cases hb
        | ok resp =>
          simp only [hresp] at hb
          cases hb
          constructor
          · intro habs; cases habs
          · intro p0 n0 hpn
            injection hpn with hp0 hn0
            subst hp0; subst hn0
            refine ⟨h3, ?_, ?_⟩
            · have hoc : isOpenAndCurrent t =
                (strStartsWith (lowerStr c) "open" && strStartsWith (lowerStr p) "current") := by
                simp [isOpenAndCurrent, hcond, hstat]
              rw [positiveTest, hoc, redResp_meets t resp hresp]
            · simp [negativeTest, hcond, hstat]
  · have h3f : inLast3Years rd t = false := by
      cases hh : inLast3Years rd t
      · rfl
      · exact absurd hh h3
    rw [if_neg h3] at hb
    cases hb
    constructor
    · intro _; exact h3f
    · intro p0 n0 hpn; cases hpn

/-- C5 (amended): when the redemption re-score runs, the 3-year filter is
applied to EVERY tradeline regardless of its first-pass classification (a
positive tradeline with an old status date is dropped too, and when the
bankruptcy flag is set the bankruptcy-discharged records are excluded again):
a record is excluded as old exactly when its status date is present and
strictly before `report_date.replace(year - 3)`, records with an absent
status date are kept, and each kept record is re-evaluated by re-running the
inline copy of the positive/negative tests, whose verdicts coincide with the
first-pass `positiveTest`/`negativeTest` (prior outcomes are not reused). -/
theorem redemption_refilter_semantics :
  ∀ (hasB : Bool) (rd : Date) (t : Tradeline) (o : RedOutcome),
    redEvalOne hasB rd t = .ok o →
    (o = RedOutcome.excludedOld → inLast3Years rd t = false) ∧
    (∀ sd, t.status_date = some sd →
      (inLast3Years rd t = false ↔ dateLt sd (replaceYear rd (rd.year - 3)) = true)) ∧
    (t.status_date = none → inLast3Years rd t = true) ∧
    (∀ p n, o = RedOutcome.considered p n →
      inLast3Years rd t = true ∧
      evalOne hasB rd t = .ok (evalMain rd t) ∧
      p = positiveTest rd t ∧ n = negativeTest t) := by
  intro hasB rd t o h
  have hchar : ∀ sd, t.status_date = some sd →
      (inLast3Years rd t = false ↔ dateLt sd (replaceYear rd (rd.year - 3)) = true) := by
    intro sd hsd
    simp only [inLast3Years, hsd]
    rw [dateLe_not_lt]
    cases hlt : dateLt sd (replaceYear rd (rd.year - 3)) <;> simp
  have hnone : t.status_date = none → inLast3Years rd t = true := by
    intro hsd; simp [inLast3Years, hsd]
  cases hasB with
  | false =>
    simp only [redEvalOne] at h
    obtain ⟨h1, h2⟩ := redEvalBody_spec rd t o h
    refine ⟨h1, hchar, hnone, ?_⟩
    intro p n hpn
    obtain ⟨ha, hp, hn⟩ := h2 p n hpn
    exact ⟨ha, rfl, hp, hn⟩
  | true =>
    cases hc : t.account_condition with
    | none => simp only [redEvalOne, hc] at h; cases h
    | some c =>
      simp only [redEvalOne, hc] at h
      by_cases hb : bankruptcyCondMatch c = true
      · rw [if_pos hb] at h
        cases h
        refine ⟨?_, hchar, hnone, ?_⟩
        · intro habs; cases habs
        · intro p n hpn; cases hpn
      · rw [if_neg hb] at h
        obtain ⟨h1, h2⟩ := redEvalBody_spec rd t o h
        refine ⟨h1, hchar, hnone, ?_⟩
        intro p n hpn
        obtain ⟨ha, hp, hn⟩ := h2 p n hpn
        refine ⟨ha, ?_, hp, hn⟩
        simp only [evalOne, hc]
        rw [if_neg hb]

theorem redemption_refilter_semantics_witness :
  redEvalOne false d2025 tNegRecent = .ok (RedOutcome.considered false true) ∧
  (inLast3Years d2025 tNegRecent = true ∧
   evalOne false d2025 tNegRecent = .ok (evalMain d2025 tNegRecent) ∧
   false = positiveTest d2025 tNegRecent ∧ true = negativeTest tNegRecent) :=
  by
  refine ⟨rfl, ?_⟩
  exact (redemption_refilter_semantics false d2025 tNegRecent
      (RedOutcome.considered false true) rfl).2.2.2 false true rfl

/-- C10: the labeled-amount extractor raises an uncaught `ValueError` on a
two-decimal cents amount (`int("500.75")`), instead of truncating the cents:
the code contradicts its own comment, which gives `"$500.75"` as a supported
example. -/
theorem extract_credit_limit_cents_raises :
  extract_credit_limit ["Credit", "Limit", "$500.75"] = Except.error () := by
  rfl

/-- C6 (counterexample): `parse_date` does NOT parse the `MM/DD/YYYY` format:
on the well-formed full date `"08/09/2019"` it returns `none` rather than
the date, because the underlying `strptime` format is `"%m/%Y"`. -/
theorem parse_date_full_date_counterexample :
  parse_date "08/09/2019" = none ∧ ¬ parse_date "08/09/2019" = some ⟨2019, 8, 9⟩ := by
  exact ⟨by rfl, by decide⟩

/-- C9 (counterexample): a tradeline whose condition starts with "open" and
contains "unpaid balance reported as loss" while its status is "Current" is
simultaneously positive and negative — refuting "exactly one of is_positive,
is_negative, is_skipped". -/
theorem eval_flags_counterexample :
  (evalOne false d2025 tBoth).toOption.map
      (fun e => (e.is_positive, e.is_negative, e.is_skipped)) = some (true, true, false)
  ∧ ¬ ((evalOne false d2025 tBoth).toOption.map (fun e =>
        (e.is_positive && !e.is_negative && !e.is_skipped) ||
        (!e.is_positive && e.is_negative && !e.is_skipped) ||
        (!e.is_positive && !e.is_negative && e.is_skipped)) = some true) := by
  exact ⟨by decide, by decide⟩

/-- C4 (counterexample): the payment status "Current/was 60 days past due" is
accepted by the currency check (which only tests a lower-cased "current"
prefix), so such a tradeline can — and here does — pass the positive test,
refuting "is_current is false / can never pass". -/
theorem compound_status_counterexample :
  (evalOne false d2025 tCompound).toOption.map
      (fun e => (e.is_positive, e.is_negative)) = some (true, false)
  ∧ ¬ ((evalOne false d2025 tCompound).toOption.map Evaluation.is_positive = some false) := by
  exact ⟨by decide, by decide⟩

/-- C2 (counterexample): a conventional real-estate tradeline that is open
and current with `original_amount = 50000` is NOT accepted as positive (its
credit limit is absent), refuting the claimed
"accepts iff open ∧ current ∧ original_amount > 30000". -/
theorem mortgage_exception_counterexample :
  isOpenAndCurrent tConvRE = true ∧ tConvRE.original_amount = some 50000 ∧
  isMortgage tConvRE = true ∧
  ¬ ((evalOne false d2025 tConvRE).toOption.map Evaluation.is_positive = some true) := by
  exact ⟨by decide, by decide, by decide, by decide⟩

/-- C3 (counterexample): with `credit_limit = 1000` (and even
`original_amount = 1500`) the amount condition fails — the code requires a
strict `credit_limit > 1000` and ignores `original_amount` — refuting
"credit_limit = 1000 alone satisfies it". -/
theorem amount_condition_counterexample :
  tLimit1000.credit_limit = some 1000 ∧ tLimit1000.original_amount = some 1500 ∧
  limitOk tLimit1000 = false ∧
  ¬ ((evalOne false d2025 tLimit1000).toOption.map Evaluation.is_positive = some true) := by
  exact ⟨by decide, by decide, by decide, by decide⟩

/-- C1 (counterexample): a single negative tradeline 2-3 years old makes the
redemption re-score run with `redemptionScore = rawScore = -1`; the claim
demands `redemption_applied = false`, but the code reports it true. -/
theorem redemption_flag_counterexample :
  (scoreReport false d2025 [tNegRecent]).toOption.map
      (fun r => (r.final_score, r.redemption_result.map RedemptionResult.final_score))
    = some (-1, some (-1))
  ∧ ¬ ((scoreReport false d2025 [tNegRecent]).toOption.map
        ReportResult.redemption_applied = some false) := by
  exact ⟨by decide, by decide⟩

/-- C5 (counterexample): with one positive tradeline whose status date is
more than 3 years old and one old negative tradeline, the redemption pass
reports 0 positives — the claimed "keep every non-negative tradeline" is
refuted, since the positive tradeline is dropped by the 3-year filter. -/
theorem redemption_filter_counterexample :
  (scoreReport false d2025 [tPosOld, tNegOld]).toOption.map
      (fun r => (r.positive_count, r.redemption_result.map RedemptionResult.positive_count))
    = some (1, some 0)
  ∧ ¬ ((scoreReport false d2025 [tPosOld, tNegOld]).toOption.map
      (fun r => r.redemption_result.map RedemptionResult.positive_count) = some (some 1)) := by
  exact ⟨by decide, by decide⟩

/-- C4 (amended): a compound payment status "Current/was {n} days past due"
(for each n in 30, 60, 90, 120, 150, 180) DOES satisfy the currency
requirement — the check is a lower-cased "current" prefix test with no
compound-form exclusion — so a tradeline meeting the other requirements is
accepted as positive; it is still never negative, because the only
status-based negative trigger is the substring "seriously past due" (there is
no "{n} days past due" trigger). -/
theorem compound_current_accepted :
  ∀ n, n ∈ [30, 60, 90, 120, 150, 180] →
    (evalOne false d2025 (compoundLine n)).toOption.map
      (fun e => (e.is_positive, e.is_negative)) = some (true, false) := by
  intro n hn
  fin_cases hn <;> decide

theorem compound_current_accepted_witness :
  (60 ∈ [30, 60, 90, 120, 150, 180]) ∧
  (evalOne false d2025 (compoundLine 60)).toOption.map
      (fun e => (e.is_positive, e.is_negative)) = some (true, false) :=
  ⟨by decide, compound_current_accepted 60 (by decide)⟩

theorem digitChar_isDigit {n : Nat} (h : n ≤ 9) : (digitChar n).isDigit = true := by
  interval_cases n <;> decide

theorem digitChar_toNat {n : Nat} (h : n ≤ 9) : (digitChar n).toNat = 48 + n := by
  interval_cases n <;> decide

theorem digitChar_not_ws {n : Nat} (h : n ≤ 9) : (digitChar n).isWhitespace = false := by
  interval_cases n <;> decide

theorem dropWhile_eq_self_of_all {p : Char → Bool} :
    ∀ (l : List Char), (∀ c ∈ l, p c = false) → l.dropWhile p = l := by
  intro l h
  cases l with
  | nil => rfl
  | cons x xs => simp [List.dropWhile_cons, h x (by simp)]

theorem pyStrip_no_ws (l : List Char) (h : ∀ c ∈ l, c.isWhitespace = false) :
    pyStrip (String.mk l) = String.mk l := by
  unfold pyStrip
  rw [show (String.mk l).data = l from rfl]
  rw [dropWhile_eq_self_of_all l h,
      dropWhile_eq_self_of_all l.reverse (by intro c hc; exact h c (List.mem_reverse.mp hc)),
      List.reverse_reverse]

theorem monthScan_lead0 (f : Nat) (h1 : 1 ≤ f) (h9 : f ≤ 9) (rest : List Char) :
    monthScan ('0' :: digitChar f :: rest) = some (f, rest) := by
  interval_cases f <;> rfl

theorem monthScan_lead1 (f : Nat) (h2 : f ≤ 2) (rest : List Char) :
    monthScan ('1' :: digitChar f :: rest) = some (10 + f, rest) := by
  interval_cases f <;> rfl

theorem yearTail_digits (m a b c d : Nat) (ha : a ≤ 9) (hb : b ≤ 9) (hc : c ≤ 9)
    (hd : d ≤ 9) (hy : 1 ≤ 1000 * a + 100 * b + 10 * c + d) :
    yearTail m ['/', digitChar a, digitChar b, digitChar c, digitChar d]
      = some ⟨((1000 * a + 100 * b + 10 * c + d : Nat) : Int), (m : Int), 1⟩ := by
  simp only [yearTail, digitChar_isDigit ha, digitChar_isDigit hb, digitChar_isDigit hc,
    digitChar_isDigit hd, Bool.and_self, if_true]
  rw [digitChar_toNat ha, digitChar_toNat hb, digitChar_toNat hc, digitChar_toNat hd]
  have hyv : (48 + a - 48) * 1000 + (48 + b - 48) * 100 + (48 + c - 48) * 10 + (48 + d - 48)
      = 1000 * a + 100 * b + 10 * c + d := by omega
  rw [hyv]
  rw [if_neg (by omega)]

/-- C6 (amended): `parse_date` parses the `MM/YYYY` fixed format, not
`MM/DD/YYYY`: for every two-digit month rendering a value 1..12 and every
four-digit year with value at least 1, it returns the first day of that month
in that year; totality of the Lean model reflects that every failure
(including a full `MM/DD/YYYY` date, refused because `%Y` must be followed by
end of input) is swallowed by the bare `except` into an absent result rather
than an exception. -/
theorem parse_date_month_year :
  ∀ (e f a b c d : Nat), e ≤ 1 → f ≤ 9 → a ≤ 9 → b ≤ 9 → c ≤ 9 → d ≤ 9 →
    1 ≤ 10 * e + f → 10 * e + f ≤ 12 → 1 ≤ 1000 * a + 100 * b + 10 * c + d →
    parse_date (String.mk [digitChar e, digitChar f, '/',
        digitChar a, digitChar b, digitChar c, digitChar d])
      = some ⟨((1000 * a + 100 * b + 10 * c + d : Nat) : Int),
              ((10 * e + f : Nat) : Int), 1⟩ := by
  intro e f a b c d he hf ha hb hc hd hm1 hm2 hy
  have hmem : ∀ ch ∈ [digitChar e, digitChar f, '/',
      digitChar a, digitChar b, digitChar c, digitChar d], ch.isWhitespace = false := by
    intro ch hch
    simp only [List.mem_cons, List.not_mem_nil, or_false] at hch
    rcases hch with h | h | h | h | h | h | h <;> subst h
    · exact digitChar_not_ws (by omega)
    · exact digitChar_not_ws hf
    · decide
    · exact digitChar_not_ws ha
    · exact digitChar_not_ws hb
    · exact digitChar_not_ws hc
    · exact digitChar_not_ws hd
  have hl := pyStrip_no_ws _ hmem
  simp only [parse_date, hl]
  interval_cases e
  · rw [show digitChar 0 = '0' from rfl, monthScan_lead0 f (by omega) hf]
    show yearTail f _ = _
    rw [yearTail_digits f a b c d ha hb hc hd hy]
    norm_num
  · rw [show digitChar 1 = '1' from rfl, monthScan_lead1 f (by omega)]
    show yearTail (10 + f) _ = _
    rw [yearTail_digits (10 + f) a b c d ha hb hc hd hy]

theorem parse_date_month_year_witness :
  ((0 : Nat) ≤ 1 ∧ (8 : Nat) ≤ 9 ∧ 1 ≤ 10 * 0 + 8 ∧ 10 * 0 + 8 ≤ 12 ∧
    (1 : Nat) ≤ 1000 * 2 + 100 * 0 + 10 * 1 + 9) ∧
  parse_date (String.mk [digitChar 0, digitChar 8, '/',
      digitChar 2, digitChar 0, digitChar 1, digitChar 9])
    = some ⟨((1000 * 2 + 100 * 0 + 10 * 1 + 9 : Nat) : Int), ((10 * 0 + 8 : Nat) : Int), 1⟩ :=
  ⟨by omega,
   parse_date_month_year 0 8 2 0 1 9 (by omega) (by omega) (by omega) (by omega)
     (by omega) (by omega) (by omega) (by omega) (by omega)⟩
